import Mathlib

/-!
# TVG_FirstOpenGL: the call trace of `main`

`src/TVG_FirstOpenGL/main.cpp` is one function, `main`, that talks to two
collaborators: the windowing library (`glfw*`) and the GPU API (`gl*`, reached
through the loader `gladLoadGL`).  The embedding below turns `main` into a
function from what the collaborators answer (`Env`) to the sequence of calls
the program issues (`Run.trace`), what it prints and what it returns.

* Handles are natural numbers; the null window handle is `none`.
* Symbolic constants of the GLFW / GL headers are constructors of `Const`,
  named as in the source.
* Floating-point expressions are kept as syntax (`FExpr`).  `FExpr.evalC` gives
  the value the program computes (binary32 / binary64 arithmetic, every
  operation rounded); `FExpr.eval` gives the value in exact arithmetic and is
  used only where a statement is about exact real values.
* The `while` loop is driven by the answers of `glfwWindowShouldClose`; the
  loop function takes fuel and returns `none` when the fuel is exhausted.
-/

namespace TVG

/-! ## Constants and floating-point expressions -/

/-- Symbolic constants of the GLFW and GL headers used by `main.cpp`. -/
inductive Const
  | GLFW_CONTEXT_VERSION_MAJOR
  | GLFW_CONTEXT_VERSION_MINOR
  | GLFW_OPENGL_PROFILE
  | GLFW_OPENGL_CORE_PROFILE
  | GL_VERTEX_SHADER
  | GL_FRAGMENT_SHADER
  | GL_ARRAY_BUFFER
  | GL_STATIC_DRAW
  | GL_FLOAT
  | GL_COLOR_BUFFER_BIT
  | GL_TRIANGLES
  deriving DecidableEq, Repr

/-- Syntax of the floating-point expressions written in `main.cpp`.
`lit m e` is the decimal literal `m / 10^e` (`0.5f` is `lit 5 1`, `3` is
`lit 3 0`, `0.07f` is `lit 7 2`); `toFloat` is the conversion `float(...)`.
Every literal of the source with a decimal point carries the suffix `f`, so
`lit m 0` is an `int` literal and `lit m (e + 1)` a `float` literal. -/
inductive FExpr
  | lit (mantissa : Nat) (exp10 : Nat)
  | neg (e : FExpr)
  | mul (a b : FExpr)
  | div (a b : FExpr)
  | sqrt (e : FExpr)
  | toFloat (e : FExpr)
  deriving DecidableEq, Repr

/-- Value of an expression in a field `K` that interprets `sqrt` by `sqrtK`,
with every operation exact (no rounding; `float(...)` is the identity).  This is
the reading "in exact real arithmetic", not what the program computes; for that
see `FExpr.evalC`. -/
def FExpr.eval {K : Type} [Field K] (sqrtK : K → K) : FExpr → K
  | .lit m e => (m : K) / (10 : K) ^ e
  | .neg a => - a.eval sqrtK
  | .mul a b => a.eval sqrtK * b.eval sqrtK
  | .div a b => a.eval sqrtK / b.eval sqrtK
  | .sqrt a => sqrtK (a.eval sqrtK)
  | .toFloat a => a.eval sqrtK

/-! ## Floating-point arithmetic -/

/-- A finite binary floating-point number: the value `m * 2^e`. -/
structure Dyadic where
  m : Int
  e : Int
  deriving DecidableEq, Repr

/-- The rational value of a floating-point number. -/
def Dyadic.toRat (x : Dyadic) : ℚ := (x.m : ℚ) * (2 : ℚ) ^ x.e

/-- A binary floating-point format: the number of significand bits `prec`, the
exponent `qmin` of its smallest quantum (the spacing of the subnormal numbers),
and `emax` with `2^emax` the least power of two too large to be represented. -/
structure Format where
  prec : Nat
  qmin : Int
  emax : Int
  deriving DecidableEq, Repr

/-- Modelled from the spec: the vertex buffer holds single-precision floats
(section 3); `float` and `GLfloat` are taken as IEEE 754 binary32. -/
def binary32 : Format := { prec := 24, qmin := -149, emax := 128 }
/-- Modelled from the spec: `double`, the result type of `sqrt`, taken as IEEE 754 binary64. -/
def binary64 : Format := { prec := 53, qmin := -1074, emax := 1024 }

/-- Number of binary digits of `n`, by halving (`fuel` bounds the recursion). -/
def bitLenAux : Nat → Nat → Nat
  | 0, _ => 0
  | fuel + 1, n => if n = 0 then 0 else bitLenAux fuel (n / 2) + 1

/-- Number of binary digits of `n`: `0` for `0`, else `floor (log2 n) + 1`. -/
def bitLen (n : Nat) : Nat := bitLenAux n n

/-- The number `n * 2^k` for `k ≥ 0`, and `n` itself for `k < 0`. -/
def shl (n : Nat) (k : Int) : Nat := n * 2 ^ k.toNat

/-- The integer `floor (log2 (N / D))` for positive `N`, `D`: the difference of
the bit lengths, or one less when `N / D` is below that power of two. -/
def floorLog2 (N D : Nat) : Int :=
  if shl D ((bitLen N : Int) - (bitLen D : Int)) ≤ shl N ((bitLen D : Int) - (bitLen N : Int)) then
    (bitLen N : Int) - (bitLen D : Int)
  else (bitLen N : Int) - (bitLen D : Int) - 1

/-- The integer nearest to `N / D`, a tie going to the even neighbour. -/
def roundToEven (N D : Nat) : Nat :=
  if 2 * (N % D) < D then N / D
  else if 2 * (N % D) = D ∧ (N / D) % 2 = 0 then N / D
  else N / D + 1

/-- Exponent of the quantum (unit in the last place) of the numbers of a format
whose binary exponent is `e`. -/
def Format.quantum (f : Format) (e : Int) : Int := max (e - ((f.prec : Int) - 1)) f.qmin

/-- The number `m * 2^k` with its sign, or `none` when its magnitude reaches
`2^emax` (the IEEE result is then an infinity, not a finite number). -/
def Format.pack (f : Format) (neg : Bool) (m : Nat) (k : Int) : Option Dyadic :=
  if 2 ^ (f.emax - k).toNat ≤ m then none
  else some { m := if neg then -(m : Int) else (m : Int), e := k }

/-- Modelled from the spec: IEEE 754 rounding to nearest, ties to even, of the
number `N / D * 2^s` (negated when `neg`) into a format; `none` on overflow.
Zero is not signed. -/
def Format.round (f : Format) (neg : Bool) (N D : Nat) (s : Int) : Option Dyadic :=
  if N = 0 then some { m := 0, e := 0 }
  else
    f.pack neg
      (roundToEven (shl N (s - f.quantum (floorLog2 N D + s)))
        (shl D (f.quantum (floorLog2 N D + s) - s)))
      (f.quantum (floorLog2 N D + s))

/-- Integer square root, digit by digit from bit `i - 1` down. -/
def isqrtAux (n : Nat) : Nat → Nat → Nat
  | 0, r => r
  | i + 1, r => isqrtAux n i (if (r + 2 ^ i) * (r + 2 ^ i) ≤ n then r + 2 ^ i else r)

/-- The integer `floor (sqrt n)` (see `isqrt_eq_sqrt`). -/
def isqrt (n : Nat) : Nat := isqrtAux n (bitLen n / 2 + 1) 0

/-- The integer nearest to `sqrt (N / D)`, a tie going to the even neighbour. -/
def roundSqrtToEven (N D : Nat) : Nat :=
  if 4 * N < (2 * isqrt (N / D) + 1) ^ 2 * D then isqrt (N / D)
  else if 4 * N = (2 * isqrt (N / D) + 1) ^ 2 * D ∧ isqrt (N / D) % 2 = 0 then isqrt (N / D)
  else isqrt (N / D) + 1

/-- Square root of `M * 2^E`, `M > 0` and `E` even, rounded once into a format
(the IEEE square root is correctly rounded). -/
def Format.sqrtEven (f : Format) (M : Nat) (E : Int) : Option Dyadic :=
  f.pack false
    (roundSqrtToEven (shl M (2 * (E / 2 - f.quantum (((bitLen M : Int) - 1) / 2 + E / 2))))
      (shl 1 (2 * (f.quantum (((bitLen M : Int) - 1) / 2 + E / 2) - E / 2))))
    (f.quantum (((bitLen M : Int) - 1) / 2 + E / 2))

/-- Square root in a format; `none` for a negative argument (the IEEE result is a NaN). -/
def Format.sqrt (f : Format) (x : Dyadic) : Option Dyadic :=
  if x.m < 0 then none
  else if x.m = 0 then some { m := 0, e := 0 }
  else if x.e % 2 = 0 then f.sqrtEven x.m.natAbs x.e
  else f.sqrtEven (2 * x.m.natAbs) (x.e - 1)

/-- Conversion of a value into a format (exact when it is representable). -/
def Format.conv (f : Format) (x : Dyadic) : Option Dyadic :=
  f.round (decide (x.m < 0)) x.m.natAbs 1 x.e

/-- Product in a format: the exact product rounded once. -/
def Format.mul (f : Format) (x y : Dyadic) : Option Dyadic :=
  f.round (decide (x.m < 0) != decide (y.m < 0)) (x.m.natAbs * y.m.natAbs) 1 (x.e + y.e)

/-- Quotient in a format: the exact quotient rounded once; `none` for a zero divisor. -/
def Format.div (f : Format) (x y : Dyadic) : Option Dyadic :=
  if y.m = 0 then none
  else f.round (decide (x.m < 0) != decide (y.m < 0)) x.m.natAbs y.m.natAbs (x.e - y.e)

/-- The arithmetic types of C++ that occur in the expressions of `main.cpp`. -/
inductive CType
  | int
  | float
  | double
  deriving DecidableEq, Repr

/-- Conversion rank: `int` below `float` below `double`. -/
def CType.rank : CType → Nat
  | .int => 0
  | .float => 1
  | .double => 2

/-- The common type of the usual arithmetic conversions. -/
def CType.join (a b : CType) : CType := if a.rank ≤ b.rank then b else a

/-- The C++ type of an expression: literals as described at `FExpr`, `sqrt`
returns `double`, `float(...)` is `float`, a product or quotient has the common
type of its operands. -/
def FExpr.ctype : FExpr → CType
  | .lit _ 0 => .int
  | .lit _ (_ + 1) => .float
  | .neg a => a.ctype
  | .mul a b => a.ctype.join b.ctype
  | .div a b => a.ctype.join b.ctype
  | .sqrt _ => .double
  | .toFloat _ => .float

/-- Whether an integer fits a 32-bit `int`. -/
def intInRange (n : Int) : Bool := decide (-2147483648 ≤ n) && decide (n ≤ 2147483647)

/-- Conversion of an operand to the common type. -/
def CType.conv : CType → Dyadic → Option Dyadic
  | .int, x => some x
  | .float, x => binary32.conv x
  | .double, x => binary64.conv x

/-- Product of two operands of one type; `none` where `int` would overflow. -/
def CType.mul : CType → Dyadic → Dyadic → Option Dyadic
  | .int, x, y => if intInRange (x.m * y.m) then some { m := x.m * y.m, e := 0 } else none
  | .float, x, y => binary32.mul x y
  | .double, x, y => binary64.mul x y

/-- Quotient of two operands of one type (`int`: truncated); `none` for a zero divisor. -/
def CType.div : CType → Dyadic → Dyadic → Option Dyadic
  | .int, x, y => if y.m = 0 then none else some { m := Int.tdiv x.m y.m, e := 0 }
  | .float, x, y => binary32.div x y
  | .double, x, y => binary64.div x y

/-- Modelled from the spec: the value the program computes for an expression,
each operation carried out in the C++ type of its operands (no excess precision)
and rounded once; `none` when the result is not a finite number. -/
def FExpr.evalC : FExpr → Option Dyadic
  | .lit m 0 => if intInRange m then some { m := m, e := 0 } else none
  | .lit m (k + 1) => binary32.round false m (10 ^ (k + 1)) 0
  | .neg a => a.evalC.map (fun x => { m := -x.m, e := x.e })
  | .mul a b =>
    a.evalC.bind fun x => b.evalC.bind fun y =>
      ((a.ctype.join b.ctype).conv x).bind fun x' =>
        ((a.ctype.join b.ctype).conv y).bind fun y' => (a.ctype.join b.ctype).mul x' y'
  | .div a b =>
    a.evalC.bind fun x => b.evalC.bind fun y =>
      ((a.ctype.join b.ctype).conv x).bind fun x' =>
        ((a.ctype.join b.ctype).conv y).bind fun y' => (a.ctype.join b.ctype).div x' y'
  | .sqrt a => a.evalC.bind fun x => (binary64.conv x).bind fun x' => binary64.sqrt x'
  | .toFloat a => a.evalC.bind fun x => binary32.conv x

/-! ## Data of the program -/

/-- Modelled from the spec: `sizeof(float)` (and `sizeof(GLfloat)`), which the
headers and the ABI fix and the spec takes as 4 bytes (9 floats = 36 bytes). -/
def sizeofFloat : Nat := 4

/-- The expression `float(sqrt(3))` of lines 38-40. -/
def floatSqrt3 : FExpr := .toFloat (.sqrt (.lit 3 0))

/-- The array `GLfloat vertices[]` of lines 37-41. -/
def vertices : List FExpr :=
  [ .neg (.lit 5 1), .div (.mul (.neg (.lit 5 1)) floatSqrt3) (.lit 3 0), .lit 0 1,
    .lit 5 1, .div (.mul (.neg (.lit 5 1)) floatSqrt3) (.lit 3 0), .lit 0 1,
    .lit 0 1, .div (.mul (.mul (.lit 5 1) floatSqrt3) (.lit 2 0)) (.lit 3 0), .lit 0 1 ]

/-- The value of `sizeof(vertices)`: the number of elements times the element size. -/
def sizeofVertices : Nat := vertices.length * sizeofFloat

/-- The string `vertexShaderSource` of lines 6-11 (up to its first NUL). -/
def vertexShaderSource : String :=
  "#version 330 core\n" ++
  "layout (location = 0) in vec3 aPos;\n" ++
  "void main()\n" ++
  "\x7b\n" ++
  "   gl_Position = vec4(aPos.x, aPos.y, aPos.z, 1.0);\n" ++
  "\x7d"

/-- The string `fragmentShaderSource` of lines 14-19 (up to its first NUL). -/
def fragmentShaderSource : String :=
  "#version 330 core\n" ++
  "out vec4 FragColor;\n" ++
  "void main()\n" ++
  "\x7b\n" ++
  "   FragColor = vec4(1.0f, 0.5f, 0.2f, 1.0f);\n" ++
  "\x7d\n"

/-! ## Calls, environment, runs -/

/-- One call of `main` into a collaborator, with its arguments and, where the
program uses it, the value the collaborator returned (last field). -/
inductive Call
  | glfwInit
  | glfwWindowHint (hint : Const) (value : Const ⊕ Nat)
  | glfwCreateWindow (width height : Nat) (title : String)
      (monitor share : Option Nat) (result : Option Nat)
  | glfwTerminate
  | glfwMakeContextCurrent (window : Nat)
  | gladLoadGL
  | glViewport (x y width height : Nat)
  | glCreateShader (type : Const) (result : Nat)
  | glShaderSource (shader : Nat) (count : Nat) (source : String) (length : Option Nat)
  | glCompileShader (shader : Nat)
  | glCreateProgram (result : Nat)
  | glAttachShader (program shader : Nat)
  | glLinkProgram (program : Nat)
  | glDeleteShader (shader : Nat)
  | glGenVertexArrays (n : Nat) (result : Nat)
  | glGenBuffers (n : Nat) (result : Nat)
  | glBindVertexArray (array : Nat)
  | glBindBuffer (target : Const) (buffer : Nat)
  | glBufferData (target : Const) (size : Nat) (data : List FExpr) (usage : Const)
  | glVertexAttribPointer (index size : Nat) (type : Const) (normalized : Bool)
      (stride : Nat) (pointer : Nat)
  | glEnableVertexAttribArray (index : Nat)
  | glClearColor (red green blue alpha : FExpr)
  | glClear (mask : Const)
  | glfwSwapBuffers (window : Nat)
  | glfwWindowShouldClose (window : Nat) (result : Bool)
  | glUseProgram (program : Nat)
  | glDrawArrays (mode : Const) (first count : Nat)
  | glfwPollEvents
  | glDeleteVertexArrays (n : Nat) (array : Nat)
  | glDeleteBuffers (n : Nat) (buffer : Nat)
  | glDeleteProgram (program : Nat)
  | glfwDestroyWindow (window : Nat)
  deriving DecidableEq, Repr

/-- What the collaborators answer during one run of `main`: the handle
returned by `glfwCreateWindow` (`none` is `NULL`), the names returned by the
object-creating GL calls, and the answer of the `k`-th call (from 0) of
`glfwWindowShouldClose`. -/
structure Env where
  window : Option Nat
  vertexShader : Nat
  fragmentShader : Nat
  shaderProgram : Nat
  VAO : Nat
  VBO : Nat
  shouldClose : Nat → Bool

/-- Observable outcome of a run of `main` that returned. -/
structure Run where
  trace : List Call
  stdout : String
  status : Int
  deriving DecidableEq, Repr

/-- Lines 24-32 and 44: library initialisation, the three hints, window creation. -/
def bootstrapCalls (result : Option Nat) : List Call :=
  [ .glfwInit,
    .glfwWindowHint .GLFW_CONTEXT_VERSION_MAJOR (.inr 3),
    .glfwWindowHint .GLFW_CONTEXT_VERSION_MINOR (.inr 3),
    .glfwWindowHint .GLFW_OPENGL_PROFILE (.inl .GLFW_OPENGL_CORE_PROFILE),
    .glfwCreateWindow 800 800 "First OpenGL" none none result ]

/-- Lines 53-60: context, loader, viewport. -/
def contextCalls (window : Nat) : List Call :=
  [ .glfwMakeContextCurrent window, .gladLoadGL, .glViewport 0 0 800 800 ]

/-- Lines 63-81: the two shaders and the program. -/
def shaderCalls (vertexShader fragmentShader shaderProgram : Nat) : List Call :=
  [ .glCreateShader .GL_VERTEX_SHADER vertexShader,
    .glShaderSource vertexShader 1 vertexShaderSource none,
    .glCompileShader vertexShader,
    .glCreateShader .GL_FRAGMENT_SHADER fragmentShader,
    .glShaderSource fragmentShader 1 fragmentShaderSource none,
    .glCompileShader fragmentShader,
    .glCreateProgram shaderProgram,
    .glAttachShader shaderProgram vertexShader,
    .glAttachShader shaderProgram fragmentShader,
    .glLinkProgram shaderProgram,
    .glDeleteShader vertexShader,
    .glDeleteShader fragmentShader ]

/-- Lines 102-134: vertex-array object and vertex buffer. -/
def geometryCalls (VAO VBO : Nat) : List Call :=
  [ .glGenVertexArrays 1 VAO,
    .glGenBuffers 1 VBO,
    .glBindVertexArray VAO,
    .glBindBuffer .GL_ARRAY_BUFFER VBO,
    .glBufferData .GL_ARRAY_BUFFER sizeofVertices vertices .GL_STATIC_DRAW,
    .glVertexAttribPointer 0 3 .GL_FLOAT false (3 * sizeofFloat) 0,
    .glEnableVertexAttribArray 0,
    .glBindBuffer .GL_ARRAY_BUFFER 0,
    .glBindVertexArray 0 ]

/-- Lines 140-144: the clear and swap before the loop. -/
def primingCalls (window : Nat) : List Call :=
  [ .glClearColor (.lit 7 2) (.lit 13 2) (.lit 17 2) (.lit 10 1),
    .glClear .GL_COLOR_BUFFER_BIT,
    .glfwSwapBuffers window ]

/-- Lines 149-162: the body of the `while` loop. -/
def frameCalls (window shaderProgram VAO : Nat) : List Call :=
  [ .glClearColor (.lit 7 2) (.lit 13 2) (.lit 17 2) (.lit 10 1),
    .glClear .GL_COLOR_BUFFER_BIT,
    .glUseProgram shaderProgram,
    .glBindVertexArray VAO,
    .glDrawArrays .GL_TRIANGLES 0 3,
    .glfwSwapBuffers window,
    .glfwPollEvents ]

/-- Lines 147-163: the `while (!glfwWindowShouldClose(window))` loop, the
`k`-th query being answered by `shouldClose k`; `none` when the fuel runs out. -/
def mainLoop (shouldClose : Nat → Bool) (window shaderProgram VAO : Nat) :
    Nat → Nat → Option (List Call)
  | 0, _ => none
  | fuel + 1, k =>
    if shouldClose k then
      some [.glfwWindowShouldClose window true]
    else
      (mainLoop shouldClose window shaderProgram VAO fuel (k + 1)).map
        (fun rest => .glfwWindowShouldClose window false ::
          (frameCalls window shaderProgram VAO ++ rest))

/-- Lines 166-173: teardown. -/
def teardownCalls (window shaderProgram VAO VBO : Nat) : List Call :=
  [ .glDeleteVertexArrays 1 VAO,
    .glDeleteBuffers 1 VBO,
    .glDeleteProgram shaderProgram,
    .glfwDestroyWindow window,
    .glfwTerminate ]

/-- The function `main` of `main.cpp`. -/
def main (env : Env) (fuel : Nat) : Option Run :=
  match env.window with
  | none =>
    some { trace := bootstrapCalls none ++ [.glfwTerminate],
           stdout := "Failed to create window" ++ "\n",
           status := -1 }
  | some window =>
    (mainLoop env.shouldClose window env.shaderProgram env.VAO fuel 0).map
      (fun loop =>
        { trace := bootstrapCalls (some window) ++ contextCalls window ++
            shaderCalls env.vertexShader env.fragmentShader env.shaderProgram ++
            geometryCalls env.VAO env.VBO ++ primingCalls window ++ loop ++
            teardownCalls window env.shaderProgram env.VAO env.VBO,
          stdout := "",
          status := 0 })

/-! ## Vocabulary of the properties -/

/-- GPU-side calls: every `gl*` call, the loader, and making the context
current.  The remaining windowing calls are listed and answer `false`. -/
def Call.isGPU : Call → Bool
  | .glfwInit => false
  | .glfwWindowHint _ _ => false
  | .glfwCreateWindow _ _ _ _ _ _ => false
  | .glfwTerminate => false
  | .glfwSwapBuffers _ => false
  | .glfwWindowShouldClose _ _ => false
  | .glfwPollEvents => false
  | .glfwDestroyWindow _ => false
  | _ => true

/-- Draw calls. -/
def Call.isDraw : Call → Bool
  | .glDrawArrays _ _ _ => true
  | _ => false

/-- Buffer swaps. -/
def Call.isSwap : Call → Bool
  | .glfwSwapBuffers _ => true
  | _ => false

/-- Event pumps. -/
def Call.isPoll : Call → Bool
  | .glfwPollEvents => true
  | _ => false

/-- Queries of the close flag. -/
def Call.isShouldClose : Call → Bool
  | .glfwWindowShouldClose _ _ => true
  | _ => false

/-- Attribute-pointer calls. -/
def Call.isAttribPointer : Call → Bool
  | .glVertexAttribPointer _ _ _ _ _ _ => true
  | _ => false

/-- Resources a call can create or release; GPU objects carry their name. -/
inductive Resource
  | library
  | window (handle : Nat)
  | shader (name : Nat)
  | program (name : Nat)
  | vertexArray (name : Nat)
  | buffer (name : Nat)
  deriving DecidableEq, Repr

/-- GPU objects among the resources. -/
def Resource.isGPUObject : Resource → Bool
  | .library => false
  | .window _ => false
  | _ => true

/-- Shader objects among the resources. -/
def Resource.isShader : Resource → Bool
  | .shader _ => true
  | _ => false

/-- The resource a call creates or initialises, if any (a window creation that
returned `NULL` creates nothing). -/
def Call.creates : Call → Option Resource
  | .glfwInit => some .library
  | .glfwCreateWindow _ _ _ _ _ (some w) => some (.window w)
  | .glCreateShader _ r => some (.shader r)
  | .glCreateProgram r => some (.program r)
  | .glGenVertexArrays _ r => some (.vertexArray r)
  | .glGenBuffers _ r => some (.buffer r)
  | _ => none

/-- The resource a call releases, if any. -/
def Call.releases : Call → Option Resource
  | .glfwTerminate => some .library
  | .glfwDestroyWindow w => some (.window w)
  | .glDeleteShader s => some (.shader s)
  | .glDeleteProgram p => some (.program p)
  | .glDeleteVertexArrays _ a => some (.vertexArray a)
  | .glDeleteBuffers _ b => some (.buffer b)
  | _ => none

/-- The GPU object a call creates, if any. -/
def Call.gpuCreates (c : Call) : Option Resource :=
  c.creates.filter Resource.isGPUObject

/-- The GPU object a call deletes, if any. -/
def Call.gpuDeletes (c : Call) : Option Resource :=
  c.releases.filter Resource.isGPUObject

/-- Effect of one call on the collection of live GPU objects: a creation adds
its object, a deletion removes one occurrence of its object and is refused
(`none`) when the object is not live, any other call leaves it alone. -/
def trackCall (live : List Resource) (c : Call) : Option (List Resource) :=
  match c.gpuCreates, c.gpuDeletes with
  | some o, _ => some (o :: live)
  | none, some o => if o ∈ live then some (live.erase o) else none
  | none, none => some live

/-- Live GPU objects after a sequence of calls; `none` as soon as a deletion
names an object that is not live at that point. -/
def track : List Resource → List Call → Option (List Resource)
  | live, [] => some live
  | live, c :: cs => (trackCall live c).bind (fun l => track l cs)

/-- The five long-lived resources (library, window, program, vertex array,
buffer) in the order the trace creates them. -/
def creationOrder (trace : List Call) : List Resource :=
  (trace.filterMap Call.creates).filter (fun r => !r.isShader)

/-- The same resources in the order the trace releases them. -/
def releaseOrder (trace : List Call) : List Resource :=
  (trace.filterMap Call.releases).filter (fun r => !r.isShader)

/-- A loop that runs `n` frames: `n` times a negative answer followed by the
loop body, then the positive answer. -/
def loopTrace (window shaderProgram VAO : Nat) : Nat → List Call
  | 0 => [.glfwWindowShouldClose window true]
  | n + 1 => .glfwWindowShouldClose window false ::
      (frameCalls window shaderProgram VAO ++ loopTrace window shaderProgram VAO n)

/-- Everything `main` issues before the loop when the window is created. -/
def setupCalls (env : Env) (window : Nat) : List Call :=
  bootstrapCalls (some window) ++ contextCalls window ++
    shaderCalls env.vertexShader env.fragmentShader env.shaderProgram ++
    geometryCalls env.VAO env.VBO

/-! ## Binding state of the GPU API -/

/-- What a vertex-array object records for one attribute slot. -/
structure AttribRecord where
  buffer : Nat
  size : Nat
  type : Const
  normalized : Bool
  stride : Nat
  offset : Nat
  deriving DecidableEq, Repr

/-- Contents of a buffer object after an upload. -/
structure BufferStore where
  size : Nat
  data : List FExpr
  usage : Const
  deriving DecidableEq, Repr

/-- Binding state: the current vertex-array object, the current array buffer,
the active program (0 is "none" for each), and the logs of what was written:
attribute records per (vertex array, slot), enabled (vertex array, slot)
pairs, uploads per buffer, each in the order the writes happened. -/
structure GLState where
  boundVAO : Nat
  boundArrayBuffer : Nat
  program : Nat
  attribs : List ((Nat × Nat) × AttribRecord)
  enabled : List (Nat × Nat)
  buffers : List (Nat × BufferStore)
  deriving DecidableEq, Repr

/-- State of a fresh context. -/
def GLState.init : GLState :=
  { boundVAO := 0, boundArrayBuffer := 0, program := 0,
    attribs := [], enabled := [], buffers := [] }

/-- Modelled from the spec: the GPU driver is an external collaborator, not
part of the repository; its binding rules are those of section 5: a bind makes
an object current, binding 0 unbinds, a call issued while an object is bound
modifies that object (and nothing when none is bound), and the attribute-pointer
call records the currently bound buffer in the currently bound vertex-array
object at the given slot.  `glUseProgram` makes a program active.  All other
calls, deletions included, leave this state unchanged. -/
def GLState.step (s : GLState) : Call → GLState
  | .glBindVertexArray a => { s with boundVAO := a }
  | .glBindBuffer target b =>
    if target = .GL_ARRAY_BUFFER then { s with boundArrayBuffer := b } else s
  | .glUseProgram p => { s with program := p }
  | .glBufferData target size data usage =>
    if target = .GL_ARRAY_BUFFER ∧ s.boundArrayBuffer ≠ 0 then
      { s with buffers := s.buffers ++
          [(s.boundArrayBuffer, { size := size, data := data, usage := usage })] }
    else s
  | .glVertexAttribPointer index size type normalized stride pointer =>
    if s.boundVAO ≠ 0 then
      { s with attribs := s.attribs ++
          [((s.boundVAO, index),
            { buffer := s.boundArrayBuffer, size := size, type := type,
              normalized := normalized, stride := stride, offset := pointer })] }
    else s
  | .glEnableVertexAttribArray index =>
    if s.boundVAO ≠ 0 then { s with enabled := s.enabled ++ [(s.boundVAO, index)] } else s
  | _ => s

/-- State after a sequence of calls. -/
def GLState.run (s : GLState) (calls : List Call) : GLState :=
  calls.foldl GLState.step s

/-- The state a draw call sees: that left by the setup, with the program and
the vertex array of the loop body current. -/
def drawState (env : Env) (w : Nat) : GLState :=
  { GLState.init.run (setupCalls env w) with
    program := env.shaderProgram, boundVAO := env.VAO }

/-- The record a vertex-array object holds for a slot: the last one written. -/
def GLState.attrib (s : GLState) (vao index : Nat) : Option AttribRecord :=
  (s.attribs.reverse.find? (fun e => e.1 = (vao, index))).map (fun e => e.2)

/-- The contents of a buffer object: the last upload. -/
def GLState.buffer (s : GLState) (name : Nat) : Option BufferStore :=
  (s.buffers.reverse.find? (fun e => e.1 = name)).map (fun e => e.2)

/-- A property `Q` of (state before the call, call) holds at every call of a
sequence started in state `st`. -/
def checkAt (Q : GLState → Call → Prop) : GLState → List Call → Prop
  | _, [] => True
  | st, c :: cs => Q st c ∧ checkAt Q (st.step c) cs

/-- Modelled from the spec: size in bytes of one component of an attribute of
the given GL type; the GL headers fix `GL_FLOAT` components at 4 bytes. -/
def componentSize : Const → Nat
  | .GL_FLOAT => 4
  | _ => 0

/-- Modelled from the spec: byte offsets, within the buffer attached to an
attribute, that fetching vertex `i` reads: `size` components starting at
`offset + i * stride`. -/
def vertexBytes (a : AttribRecord) (i : Nat) : List Nat :=
  (List.range (a.size * componentSize a.type)).map (fun j => a.offset + i * a.stride + j)

/-- Modelled from the spec: byte offsets read by a draw of `count` vertices
starting at vertex `first`. -/
def drawBytes (a : AttribRecord) (first count : Nat) : List Nat :=
  (List.range count).flatMap (fun i => vertexBytes a (first + i))

/-! ## Geometry -/

/-- Element `i` of `vertices` as the program stores it, a rational number (every
element has a finite value, see `evalC_vertices`; the default 0 is not used). -/
def vertexValue (i : Nat) : ℚ :=
  (((vertices.getD i (.lit 0 0)).evalC).map Dyadic.toRat).getD 0

/-- Components `x`, `y` of vertex `i` of the array: three floats per vertex. -/
def clipXY (i : Nat) : ℚ × ℚ :=
  (vertexValue (3 * i), vertexValue (3 * i + 1))

/-- Modelled from the spec: the viewport transform of the GPU API for the
viewport `(x0, y0, w, h)`: `(x, y) ↦ (x0 + (x + 1) * w / 2, y0 + (y + 1) * h / 2)`,
which is `((x + 1) * 400, (y + 1) * 400)` for the viewport `(0, 0, 800, 800)`
that line 60 sets. -/
def toWindow {K : Type} [Field K] (x0 y0 w h : Nat) (p : K × K) : K × K :=
  ((x0 : K) + (p.1 + 1) * ((w : K) / 2), (y0 : K) + (p.2 + 1) * ((h : K) / 2))

/-- Window-space position of vertex `i` under the viewport of line 60. -/
def windowXY (i : Nat) : ℚ × ℚ :=
  toWindow 0 0 800 800 (clipXY i)

/-- Area of the triangle `a b c` (shoelace formula). -/
def triangleArea {K : Type} [LinearOrderedField K] (a b c : K × K) : K :=
  |a.1 * (b.2 - c.2) + b.1 * (c.2 - a.2) + c.1 * (a.2 - b.2)| / 2

/-- A run in which window creation fails. -/
def envFail : Env :=
  { window := none, vertexShader := 0, fragmentShader := 0, shaderProgram := 0,
    VAO := 0, VBO := 0, shouldClose := fun _ => false }

/-- A run with window handle 7, GL names 1, 2, 3 (shaders, program), 1 (vertex
array), 1 (buffer), closed after two frames. -/
def envTwoFrames : Env :=
  { window := some 7, vertexShader := 1, fragmentShader := 2, shaderProgram := 3,
    VAO := 1, VBO := 1, shouldClose := fun k => decide (2 ≤ k) }

/-! ## The loop -/

theorem mainLoop_complete (sc : Nat → Bool) (w p v : Nat) :
    ∀ (N k fuel : Nat), (∀ i, i < N → sc (k + i) = false) → sc (k + N) = true → N < fuel →
      mainLoop sc w p v fuel k = some (loopTrace w p v N) := by
  intro N
  induction N with
  | zero =>
    intro k fuel _ ht hf
    obtain ⟨f, rfl⟩ : ∃ f, fuel = f + 1 := ⟨fuel - 1, by omega⟩
    simp only [Nat.add_zero] at ht
    simp [mainLoop, loopTrace, ht]
  | succ n ih =>
    intro k fuel hfalse ht hf
    obtain ⟨f, rfl⟩ : ∃ f, fuel = f + 1 := ⟨fuel - 1, by omega⟩
    have h0 : sc k = false := by simpa using hfalse 0 (by omega)
    have hrec := ih (k + 1) f
      (fun i hi => by have := hfalse (i + 1) (by omega); rwa [show k + 1 + i = k + (i + 1) by omega])
      (by rwa [show k + 1 + n = k + (n + 1) by omega]) (by omega)
    simp [mainLoop, loopTrace, h0, hrec]

theorem mainLoop_sound (sc : Nat → Bool) (w p v : Nat) :
    ∀ (fuel k : Nat) (t : List Call), mainLoop sc w p v fuel k = some t →
      ∃ N, N < fuel ∧ (∀ i, i < N → sc (k + i) = false) ∧ sc (k + N) = true ∧
        t = loopTrace w p v N := by
  intro fuel
  induction fuel with
  | zero => intro k t h; simp [mainLoop] at h
  | succ f ih =>
    intro k t h
    cases hk : sc k with
    | true =>
      simp [mainLoop, hk] at h
      exact ⟨0, by omega, by intro i hi; omega, by simpa using hk, by simp [loopTrace, h]⟩
    | false =>
      simp [mainLoop, hk] at h
      obtain ⟨rest, hrest, rfl⟩ := h
      obtain ⟨N, hN, hfalse, ht, rfl⟩ := ih (k + 1) rest hrest
      refine ⟨N + 1, by omega, ?_, by rwa [show k + (N + 1) = k + 1 + N by omega], by simp [loopTrace]⟩
      intro i hi
      cases i with
      | zero => simpa using hk
      | succ j => rw [show k + (j + 1) = k + 1 + j by omega]; exact hfalse j (by omega)

theorem loopTrace_split (w p v : Nat) :
    ∀ N, ∃ fr, loopTrace w p v N = fr ++ [.glfwWindowShouldClose w true] ∧
      ∀ c ∈ fr, ∀ w', c ≠ .glfwWindowShouldClose w' true := by
  intro N
  induction N with
  | zero => exact ⟨[], by simp [loopTrace], by simp⟩
  | succ n ih =>
    obtain ⟨fr, hfr, hno⟩ := ih
    refine ⟨.glfwWindowShouldClose w false :: (frameCalls w p v ++ fr), by simp [loopTrace, hfr], ?_⟩
    intro c hc w'
    simp only [List.mem_cons, List.mem_append] at hc
    rcases hc with rfl | hc | hc
    · simp
    · simp only [frameCalls, List.mem_cons, List.mem_singleton, List.not_mem_nil, or_false] at hc
      rcases hc with rfl | rfl | rfl | rfl | rfl | rfl | rfl <;> simp
    · exact hno c hc w'

theorem countP_loopTrace_shouldClose (w p v : Nat) :
    ∀ N, (loopTrace w p v N).countP Call.isShouldClose = N + 1 := by
  intro N
  induction N with
  | zero => simp [loopTrace, Call.isShouldClose]
  | succ n ih =>
    simp [loopTrace, frameCalls, List.countP_cons, List.countP_append, Call.isShouldClose, ih]

theorem countP_loopTrace_draw (w p v : Nat) :
    ∀ N, (loopTrace w p v N).countP Call.isDraw = N := by
  intro N
  induction N with
  | zero => simp [loopTrace, Call.isDraw]
  | succ n ih =>
    simp [loopTrace, frameCalls, List.countP_cons, List.countP_append, Call.isDraw, ih]

theorem countP_loopTrace_poll (w p v : Nat) :
    ∀ N, (loopTrace w p v N).countP Call.isPoll = N := by
  intro N
  induction N with
  | zero => simp [loopTrace, Call.isPoll]
  | succ n ih =>
    simp [loopTrace, frameCalls, List.countP_cons, List.countP_append, Call.isPoll, ih]

theorem countP_loopTrace_swap (w p v : Nat) :
    ∀ N, (loopTrace w p v N).countP Call.isSwap = N := by
  intro N
  induction N with
  | zero => simp [loopTrace, Call.isSwap]
  | succ n ih =>
    simp [loopTrace, frameCalls, List.countP_cons, List.countP_append, Call.isSwap, ih]

/-- The trace of a run with a window and `N` frames. -/
theorem main_complete (env : Env) (w N fuel : Nat) (hw : env.window = some w)
    (hfalse : ∀ k, k < N → env.shouldClose k = false) (htrue : env.shouldClose N = true)
    (hfuel : N < fuel) :
    main env fuel = some
      { trace := setupCalls env w ++ primingCalls w ++ loopTrace w env.shaderProgram env.VAO N ++
          teardownCalls w env.shaderProgram env.VAO env.VBO,
        stdout := "", status := 0 } := by
  have h := mainLoop_complete env.shouldClose w env.shaderProgram env.VAO N 0 fuel
    (fun i hi => by simpa using hfalse i hi) (by simpa using htrue) hfuel
  simp [main, hw, h, setupCalls]

/-- Every run with a window that returns has the trace of some number of frames. -/
theorem main_sound (env : Env) (w fuel : Nat) (r : Run) (hw : env.window = some w)
    (h : main env fuel = some r) :
    ∃ N, N < fuel ∧ (∀ k, k < N → env.shouldClose k = false) ∧ env.shouldClose N = true ∧
      r = { trace := setupCalls env w ++ primingCalls w ++
              loopTrace w env.shaderProgram env.VAO N ++
              teardownCalls w env.shaderProgram env.VAO env.VBO,
            stdout := "", status := 0 } := by
  simp only [main, hw, Option.map_eq_some'] at h
  obtain ⟨t, ht, rfl⟩ := h
  obtain ⟨N, hN, hfalse, htrue, rfl⟩ :=
    mainLoop_sound env.shouldClose w env.shaderProgram env.VAO fuel 0 t ht
  exact ⟨N, hN, fun k hk => by simpa using hfalse k hk, by simpa using htrue, by simp [setupCalls]⟩

/-! ## Live objects -/

theorem track_append (a b : List Call) : ∀ L, track L (a ++ b) = (track L a).bind (fun l => track l b) := by
  induction a with
  | nil => intro L; simp [track]
  | cons c cs ih =>
    intro L
    simp only [List.cons_append, track]
    cases h : trackCall L c with
    | none => simp
    | some l => simp [ih]

theorem track_neutral : ∀ (l : List Call) (L : List Resource),
    (∀ c ∈ l, c.gpuCreates = none ∧ c.gpuDeletes = none) → track L l = some L := by
  intro l
  induction l with
  | nil => intro L _; rfl
  | cons c cs ih =>
    intro L h
    have hc := h c (List.mem_cons_self _ _)
    simp [track, trackCall, hc.1, hc.2, ih L (fun d hd => h d (List.mem_cons_of_mem _ hd))]

theorem loopTrace_neutral (w p v : Nat) :
    ∀ N, ∀ c ∈ loopTrace w p v N, c.creates = none ∧ c.releases = none := by
  intro N
  induction N with
  | zero => simp [loopTrace, Call.creates, Call.releases]
  | succ n ih =>
    intro c hc
    simp only [loopTrace, List.mem_cons, List.mem_append] at hc
    rcases hc with rfl | hc | hc
    · simp [Call.creates, Call.releases]
    · revert c
      simp [frameCalls, Call.creates, Call.releases]
    · exact ih c hc

theorem track_setup (env : Env) (w : Nat) :
    track [] (setupCalls env w) =
      some [.buffer env.VBO, .vertexArray env.VAO, .program env.shaderProgram] := by
  by_cases h : env.fragmentShader = env.vertexShader
  · simp [setupCalls, bootstrapCalls, contextCalls, shaderCalls, geometryCalls, track, trackCall,
      Call.gpuCreates, Call.gpuDeletes, Call.creates, Call.releases, Option.filter,
      Resource.isGPUObject, h]
  · simp [setupCalls, bootstrapCalls, contextCalls, shaderCalls, geometryCalls, track, trackCall,
      Call.gpuCreates, Call.gpuDeletes, Call.creates, Call.releases, Option.filter,
      Resource.isGPUObject, h]

/-! ## States along a trace -/

theorem GLState.run_append (st : GLState) (a b : List Call) :
    st.run (a ++ b) = (st.run a).run b := by
  simp [GLState.run, List.foldl_append]

theorem checkAt_append (Q : GLState → Call → Prop) (a b : List Call) :
    ∀ st, checkAt Q st (a ++ b) ↔ checkAt Q st a ∧ checkAt Q (st.run a) b := by
  induction a with
  | nil => intro st; simp [checkAt, GLState.run]
  | cons c cs ih =>
    intro st
    have h := ih (st.step c)
    show (Q st c ∧ checkAt Q (st.step c) (cs ++ b)) ↔ _
    rw [h]
    simp [checkAt, GLState.run, and_assoc]

theorem checkAt_split (Q : GLState → Call → Prop) :
    ∀ (pre : List Call) (st : GLState) (c : Call) (post : List Call),
      checkAt Q st (pre ++ c :: post) → Q (st.run pre) c := by
  intro pre st c post h
  exact ((checkAt_append Q pre (c :: post) st).mp h).2.1

theorem checkAt_of_forall (Q : GLState → Call → Prop) :
    ∀ (l : List Call) (st : GLState), (∀ c ∈ l, ∀ s, Q s c) → checkAt Q st l := by
  intro l
  induction l with
  | nil => intro st _; trivial
  | cons c cs ih =>
    intro st h
    exact ⟨h c (List.mem_cons_self _ _) st, ih _ (fun d hd => h d (List.mem_cons_of_mem _ hd))⟩

theorem mem_loopTrace (w p v : Nat) :
    ∀ N, ∀ c ∈ loopTrace w p v N,
      c = .glfwWindowShouldClose w false ∨ c ∈ frameCalls w p v ∨
        c = .glfwWindowShouldClose w true := by
  intro N
  induction N with
  | zero => simp [loopTrace]
  | succ n ih =>
    intro c hc
    simp only [loopTrace, List.mem_cons, List.mem_append] at hc
    rcases hc with rfl | hc | hc
    · exact Or.inl rfl
    · exact Or.inr (Or.inl hc)
    · exact ih c hc

theorem loopTrace_eq_flatten (w p v : Nat) :
    ∀ N, loopTrace w p v N =
      (List.replicate N (.glfwWindowShouldClose w false :: frameCalls w p v)).flatten ++
        [.glfwWindowShouldClose w true] := by
  intro N
  induction N with
  | zero => simp [loopTrace]
  | succ n ih => simp [loopTrace, List.replicate_succ, ih]

theorem checkAt_loopTrace_draw (env : Env) (w : Nat) :
    ∀ N st, { st with program := env.shaderProgram, boundVAO := env.VAO } = drawState env w →
      checkAt (fun s c => c.isDraw = true →
          c = .glDrawArrays .GL_TRIANGLES 0 3 ∧ s = drawState env w)
        st (loopTrace w env.shaderProgram env.VAO N) := by
  intro N
  induction N with
  | zero => intro st _; simp [loopTrace, checkAt, Call.isDraw]
  | succ n ih =>
    intro st hst
    simp only [loopTrace, frameCalls, List.cons_append, List.nil_append, checkAt,
      GLState.step, Call.isDraw, Bool.false_eq_true, false_implies, true_and, forall_true_left,
      true_implies]
    exact ⟨hst, ih _ hst⟩

/-- At every draw call of a run with `N` frames the call is
`glDrawArrays(GL_TRIANGLES, 0, 3)` and the state is `drawState`. -/
theorem state_at_draw (env : Env) (w N : Nat) (pre post : List Call) (c : Call)
    (ht : setupCalls env w ++ primingCalls w ++ loopTrace w env.shaderProgram env.VAO N ++
      teardownCalls w env.shaderProgram env.VAO env.VBO = pre ++ c :: post)
    (hc : c.isDraw = true) :
    c = .glDrawArrays .GL_TRIANGLES 0 3 ∧ GLState.init.run pre = drawState env w := by
  refine checkAt_split (fun s c => c.isDraw = true →
      c = .glDrawArrays .GL_TRIANGLES 0 3 ∧ s = drawState env w) pre GLState.init c post ?_ hc
  rw [← ht]
  simp only [checkAt_append]
  refine ⟨⟨⟨?_, ?_⟩, ?_⟩, ?_⟩
  · apply checkAt_of_forall
    simp [setupCalls, bootstrapCalls, contextCalls, shaderCalls, geometryCalls, Call.isDraw]
  · apply checkAt_of_forall
    simp [primingCalls, Call.isDraw]
  · apply checkAt_loopTrace_draw
    simp [GLState.run_append, primingCalls, GLState.run, GLState.step, drawState]
  · apply checkAt_of_forall
    simp [teardownCalls, Call.isDraw]

/-- The state left by the setup when the driver returned non-zero names for the
vertex array and the buffer. -/
theorem setup_state (env : Env) (w : Nat) (hVAO : env.VAO ≠ 0) (hVBO : env.VBO ≠ 0) :
    GLState.init.run (setupCalls env w) =
      { boundVAO := 0, boundArrayBuffer := 0, program := 0,
        attribs := [((env.VAO, 0),
          { buffer := env.VBO, size := 3, type := .GL_FLOAT, normalized := false,
            stride := 3 * sizeofFloat, offset := 0 })],
        enabled := [(env.VAO, 0)],
        buffers := [(env.VBO,
          { size := sizeofVertices, data := vertices, usage := .GL_STATIC_DRAW })] } := by
  simp [setupCalls, bootstrapCalls, contextCalls, shaderCalls, geometryCalls, GLState.run,
    GLState.step, GLState.init, hVAO, hVBO]

/-- At every attribute-pointer call of a run with `N` frames the vertex array
and the buffer generated in the setup are the current bindings. -/
theorem state_at_attribPointer (env : Env) (w N : Nat) (pre post : List Call) (c : Call)
    (ht : setupCalls env w ++ primingCalls w ++ loopTrace w env.shaderProgram env.VAO N ++
      teardownCalls w env.shaderProgram env.VAO env.VBO = pre ++ c :: post)
    (hc : c.isAttribPointer = true) :
    (GLState.init.run pre).boundVAO = env.VAO ∧
      (GLState.init.run pre).boundArrayBuffer = env.VBO := by
  refine checkAt_split (fun s c => c.isAttribPointer = true →
      s.boundVAO = env.VAO ∧ s.boundArrayBuffer = env.VBO) pre GLState.init c post ?_ hc
  rw [← ht]
  simp only [checkAt_append]
  refine ⟨⟨⟨?_, ?_⟩, ?_⟩, ?_⟩
  · simp only [setupCalls, bootstrapCalls, contextCalls, shaderCalls, geometryCalls, checkAt,
      Call.isAttribPointer, GLState.step, GLState.init, List.cons_append, List.nil_append,
      List.append_assoc]
    simp only [Bool.false_eq_true, false_implies, true_and, and_true, if_true, true_implies]
    split <;> exact ⟨rfl, rfl⟩
  · apply checkAt_of_forall
    simp [primingCalls, Call.isAttribPointer]
  · apply checkAt_of_forall
    intro d hd
    have hmem := mem_loopTrace w env.shaderProgram env.VAO N d hd
    clear hd
    rcases hmem with rfl | hd | rfl
    · simp [Call.isAttribPointer]
    · revert d
      simp [frameCalls, Call.isAttribPointer]
    · simp [Call.isAttribPointer]
  · apply checkAt_of_forall
    simp [teardownCalls, Call.isAttribPointer]

theorem countP_loopTrace_attribPointer (w p v : Nat) :
    ∀ N, (loopTrace w p v N).countP Call.isAttribPointer = 0 := by
  intro N
  induction N with
  | zero => simp [loopTrace, Call.isAttribPointer]
  | succ n ih =>
    simp [loopTrace, frameCalls, List.countP_cons, List.countP_append, Call.isAttribPointer, ih]

/-! ## The square root of 3 -/

theorem sqrt3_lower : (1.73205 : ℝ) < Real.sqrt 3 := by
  rw [Real.lt_sqrt (by norm_num)]
  norm_num

theorem sqrt3_upper : Real.sqrt 3 < (1.732075 : ℝ) := by
  rw [Real.sqrt_lt' (by norm_num)]
  norm_num

/-- The binary32 number `14529495 / 2^23` lies below the square root of 3, by less
than `5 * 10^-8`. -/
theorem sqrt3_near :
    (14529495 / 8388608 : ℝ) < Real.sqrt 3 ∧
      Real.sqrt 3 < (14529495 / 8388608 : ℝ) + 1 / 20000000 := by
  constructor
  · rw [Real.lt_sqrt (by norm_num)]
    norm_num
  · rw [Real.sqrt_lt' (by norm_num)]
    norm_num

/-! ## Values of the floating-point expressions -/

theorem lt_two_pow_bitLenAux : ∀ (fuel n : Nat), n ≤ fuel → n < 2 ^ bitLenAux fuel n := by
  intro fuel
  induction fuel with
  | zero => intro n h; simp [bitLenAux]; omega
  | succ f ih =>
    intro n h
    by_cases hn : n = 0
    · simp [bitLenAux, hn]
    · have h2 := ih (n / 2) (by omega)
      simp only [bitLenAux, hn, if_false, pow_succ]
      omega

theorem isqrtAux_spec (n : Nat) : ∀ (i r : Nat), r * r ≤ n → n < (r + 2 ^ i) * (r + 2 ^ i) →
    isqrtAux n i r * isqrtAux n i r ≤ n ∧ n < (isqrtAux n i r + 1) * (isqrtAux n i r + 1) := by
  intro i
  induction i with
  | zero => intro r h1 h2; simpa [isqrtAux] using ⟨h1, h2⟩
  | succ i ih =>
    intro r h1 h2
    simp only [isqrtAux]
    split
    · next hc =>
      refine ih _ hc ?_
      have : r + 2 ^ i + 2 ^ i = r + 2 ^ (i + 1) := by rw [pow_succ]; omega
      rw [this]; exact h2
    · next hc => exact ih _ h1 (by omega)

theorem isqrt_eq_sqrt (n : Nat) : isqrt n = Nat.sqrt n := by
  have h := isqrtAux_spec n (bitLen n / 2 + 1) 0 (by simp) (by
    have h1 := lt_two_pow_bitLenAux n n (le_refl n)
    have h2 : 2 ^ bitLenAux n n ≤ 2 ^ (bitLen n / 2 + 1) * 2 ^ (bitLen n / 2 + 1) := by
      rw [← pow_add]
      exact Nat.pow_le_pow_right (by norm_num) (by simp only [bitLen]; omega)
    simp only [Nat.zero_add]
    omega)
  exact Nat.eq_sqrt.mpr h

/-- The nearest integer is within one half of the quotient. -/
theorem roundToEven_near (N D : Nat) (hD : 0 < D) :
    2 * (roundToEven N D * D) ≤ 2 * N + D ∧ 2 * N ≤ 2 * (roundToEven N D * D) + D := by
  have h1 := Nat.div_add_mod N D
  have h2 := Nat.mod_lt N hD
  have h3 : (N / D + 1) * D = D * (N / D) + D := by ring
  have h4 : N / D * D = D * (N / D) := by ring
  unfold roundToEven
  split
  · rw [h4]; omega
  · split
    · rw [h4]; omega
    · rw [h3]; omega

set_option maxRecDepth 100000 in
set_option exponentiation.threshold 4096 in
/-- The values of `sqrt(3)` and of `float(sqrt(3))`: the binary64 number
`7800463371553962 / 2^52` and the binary32 number `14529495 / 2^23`. -/
theorem evalC_sqrt3 :
    (FExpr.sqrt (.lit 3 0)).evalC = some { m := 7800463371553962, e := -52 } ∧
      floatSqrt3.evalC = some { m := 14529495, e := -23 } := by
  decide

/-- Both values are the nearest of their format: the first is within half a
quantum (`2^-53`) of the real square root of 3, the second within half a
quantum (`2^-24`) of the first. -/
theorem evalC_sqrt3_nearest :
    |Real.sqrt 3 - 7800463371553962 / 2 ^ 52| < 1 / 2 ^ 53 ∧
      |(7800463371553962 / 2 ^ 52 : ℚ) - 14529495 / 2 ^ 23| < 1 / 2 ^ 24 := by
  constructor
  · rw [abs_lt]
    constructor
    · have h : (7800463371553962 / 2 ^ 52 - 1 / 2 ^ 53 : ℝ) < Real.sqrt 3 := by
        rw [Real.lt_sqrt (by norm_num)]
        norm_num
      linarith
    · have h : Real.sqrt 3 < (7800463371553962 / 2 ^ 52 + 1 / 2 ^ 53 : ℝ) := by
        rw [Real.sqrt_lt' (by norm_num)]
        norm_num
      linarith
  · rw [abs_lt]
    constructor <;> norm_num

set_option maxRecDepth 100000 in
set_option exponentiation.threshold 4096 in
/-- The nine elements of `vertices` as the program computes them. -/
theorem evalC_vertices :
    vertices.map FExpr.evalC =
      [ some { m := -8388608, e := -24 }, some { m := -9686330, e := -25 },
        some { m := 0, e := 0 },
        some { m := 8388608, e := -24 }, some { m := -9686330, e := -25 },
        some { m := 0, e := 0 },
        some { m := 0, e := 0 }, some { m := 9686330, e := -24 },
        some { m := 0, e := 0 } ] := by
  decide

theorem vertexValue_all :
    List.map vertexValue [0, 1, 2, 3, 4, 5, 6, 7, 8] =
      [ -1 / 2, -4843165 / 16777216, 0, 1 / 2, -4843165 / 16777216, 0,
        0, 4843165 / 8388608, 0 ] := by
  have h := evalC_vertices
  simp only [vertices, List.map_cons, List.map_nil, List.cons.injEq, and_true] at h
  obtain ⟨h0, h1, h2, h3, h4, h5, h6, h7, h8⟩ := h
  simp only [List.map_cons, List.map_nil, vertexValue, vertices, List.getD_cons_zero,
    List.getD_cons_succ, h0, h1, h2, h3, h4, h5, h6, h7, h8, Option.map_some',
    Option.getD_some, Dyadic.toRat]
  norm_num

theorem windowXY_zero : windowXY 0 = (200, 298351275 / 1048576) := by
  have h := vertexValue_all
  simp only [List.map_cons, List.map_nil, List.cons.injEq, and_true] at h
  simp only [windowXY, clipXY, toWindow, h.1, h.2.1, Prod.mk.injEq]
  norm_num

theorem windowXY_one : windowXY 1 = (600, 298351275 / 1048576) := by
  have h := vertexValue_all
  simp only [List.map_cons, List.map_nil, List.cons.injEq, and_true] at h
  simp only [windowXY, clipXY, toWindow, h.2.2.2.1, h.2.2.2.2.1, Prod.mk.injEq]
  norm_num

theorem windowXY_two : windowXY 2 = (400, 330794325 / 524288) := by
  have h := vertexValue_all
  simp only [List.map_cons, List.map_nil, List.cons.injEq, and_true] at h
  simp only [windowXY, clipXY, toWindow, h.2.2.2.2.2.2.1, h.2.2.2.2.2.2.2.1, Prod.mk.injEq]
  norm_num

theorem triangleArea_window :
    triangleArea (windowXY 0) (windowXY 1) (windowXY 2) = 9080934375 / 131072 := by
  rw [windowXY_zero, windowXY_one, windowXY_two]
  simp only [triangleArea]
  norm_num [abs_of_nonneg]

/-! ## Claims -/

/-- C1. When `glfwCreateWindow` returns the null handle, `main` returns (for any
fuel) having written exactly "Failed to create window" and a newline to standard
output, having called `glfwTerminate` (once, as its last call), with status -1,
which is not zero, and its trace is the initialisation, the three hints, the
window creation and the termination: no call of it is a GPU call (no `gl*`
call, no loader call, no `glfwMakeContextCurrent`). -/
theorem C1_failure_path (env : Env) (fuel : Nat) (hw : env.window = none) :
    ∃ r, main env fuel = some r ∧
      r.stdout = "Failed to create window\n" ∧
      r.status = -1 ∧ r.status ≠ 0 ∧
      r.trace = bootstrapCalls none ++ [.glfwTerminate] ∧
      r.trace.count .glfwTerminate = 1 ∧
      r.trace.getLast? = some .glfwTerminate ∧
      ∀ c ∈ r.trace, c.isGPU = false := by
  refine ⟨{ trace := bootstrapCalls none ++ [.glfwTerminate],
             stdout := "Failed to create window" ++ "\n", status := -1 },
    by simp only [main, hw], by decide, rfl, by decide, rfl, ?_, ?_, ?_⟩
  · simp [bootstrapCalls]
  · simp [bootstrapCalls]
  · simp [bootstrapCalls, Call.isGPU]

/-- Witness of C1 on the environment `envFail`. -/
theorem C1_failure_path_witness :
    envFail.window = none ∧
    ∃ r, main envFail 0 = some r ∧
      r.stdout = "Failed to create window\n" ∧
      r.status = -1 ∧ r.status ≠ 0 ∧
      r.trace = bootstrapCalls none ++ [.glfwTerminate] ∧
      r.trace.count .glfwTerminate = 1 ∧
      r.trace.getLast? = some .glfwTerminate ∧
      ∀ c ∈ r.trace, c.isGPU = false :=
  ⟨rfl, C1_failure_path envFail 0 rfl⟩

/-- C2. In every run of `main` that returns (window created or not, any number
of frames) the GPU objects are created and deleted in matching pairs: following
the trace, no deletion names an object that is not live at that point and no
object is live at the end; the deleted objects are the created ones, each as
many times as it was created (once, when the driver hands out distinct names). -/
theorem C2_lifecycle (env : Env) (fuel : Nat) (r : Run) (h : main env fuel = some r) :
    track [] r.trace = some [] ∧
    (r.trace.filterMap Call.gpuDeletes).Perm (r.trace.filterMap Call.gpuCreates) ∧
    ∀ o, (r.trace.filterMap Call.gpuDeletes).count o =
      (r.trace.filterMap Call.gpuCreates).count o := by
  have key : track [] r.trace = some [] ∧
      (r.trace.filterMap Call.gpuDeletes).Perm (r.trace.filterMap Call.gpuCreates) := by
    cases hw : env.window with
    | none =>
      simp only [main, hw, Option.some.injEq] at h
      subst h
      simp [bootstrapCalls, track, trackCall, Call.gpuCreates, Call.gpuDeletes, Call.creates,
        Call.releases, Option.filter, Resource.isGPUObject]
    | some w =>
      obtain ⟨N, -, -, -, rfl⟩ := main_sound env w fuel r hw h
      have hloop := loopTrace_neutral w env.shaderProgram env.VAO N
      have hL : ∀ L, track L (loopTrace w env.shaderProgram env.VAO N) = some L := fun L =>
        track_neutral _ L (fun c hc => by
          simp [Call.gpuCreates, Call.gpuDeletes, (hloop c hc).1, (hloop c hc).2])
      have hc : (loopTrace w env.shaderProgram env.VAO N).filterMap Call.gpuCreates = [] :=
        List.filterMap_eq_nil_iff.mpr (fun c hc => by simp [Call.gpuCreates, (hloop c hc).1])
      have hd : (loopTrace w env.shaderProgram env.VAO N).filterMap Call.gpuDeletes = [] :=
        List.filterMap_eq_nil_iff.mpr (fun c hc => by simp [Call.gpuDeletes, (hloop c hc).2])
      refine ⟨?_, ?_⟩
      · simp only [track_append, track_setup, hL, Option.some_bind]
        simp [primingCalls, teardownCalls, track, trackCall, Call.gpuCreates, Call.gpuDeletes,
          Call.creates, Call.releases, Option.filter, Resource.isGPUObject]
      · simp only [List.filterMap_append, hc, hd, List.append_nil]
        simp only [setupCalls, bootstrapCalls, contextCalls, shaderCalls, geometryCalls,
          primingCalls, teardownCalls, List.filterMap_append, List.filterMap_cons,
          List.filterMap_nil, Call.gpuCreates, Call.gpuDeletes, Call.creates, Call.releases,
          Option.filter, Resource.isGPUObject]
        simp only [Bool.false_eq_true, if_false, if_true, List.nil_append, List.append_nil,
          List.cons_append]
        refine List.Perm.cons _ (List.Perm.cons _ ?_)
        exact List.perm_append_singleton (Resource.program env.shaderProgram)
          [Resource.vertexArray env.VAO, Resource.buffer env.VBO]
  exact ⟨key.1, key.2, fun o => key.2.count_eq o⟩

/-- Witness of C2 on `envTwoFrames` (two frames, fuel 3). -/
theorem C2_lifecycle_witness :
    ∃ r, main envTwoFrames 3 = some r ∧
      track [] r.trace = some [] ∧
      (r.trace.filterMap Call.gpuDeletes).Perm (r.trace.filterMap Call.gpuCreates) ∧
      ∀ o, (r.trace.filterMap Call.gpuDeletes).count o =
        (r.trace.filterMap Call.gpuCreates).count o :=
  ⟨_, rfl, C2_lifecycle envTwoFrames 3 _ rfl⟩

/-- C3 as stated fails: in the run `envTwoFrames` the order in which the five
resources are released is not the reverse of the order in which they were
created (the vertex array is generated before the buffer and also deleted
before it). -/
theorem C3_release_not_reverse :
    ∃ r, main envTwoFrames 3 = some r ∧
      releaseOrder r.trace ≠ (creationOrder r.trace).reverse :=
  ⟨_, rfl, by decide⟩

/-- C3, amended. In every run with a window that returns, the trace ends with
the positive answer of the close query followed by exactly: delete vertex array,
delete buffer, delete program, destroy window, terminate library.  The five
resources were created in the order library, window, program, vertex array,
buffer; so the release order is the reverse of the creation order except for
the vertex array and the buffer, which are released in the order in which they
were generated. -/
theorem C3_teardown_order (env : Env) (w fuel : Nat) (r : Run)
    (hw : env.window = some w) (h : main env fuel = some r) :
    (∃ pre, r.trace = pre ++ [.glfwWindowShouldClose w true,
        .glDeleteVertexArrays 1 env.VAO, .glDeleteBuffers 1 env.VBO,
        .glDeleteProgram env.shaderProgram, .glfwDestroyWindow w, .glfwTerminate]) ∧
    releaseOrder r.trace =
      [.vertexArray env.VAO, .buffer env.VBO, .program env.shaderProgram,
       .window w, .library] ∧
    creationOrder r.trace =
      [.library, .window w, .program env.shaderProgram,
       .vertexArray env.VAO, .buffer env.VBO] := by
  obtain ⟨N, -, -, -, rfl⟩ := main_sound env w fuel r hw h
  have hloop := loopTrace_neutral w env.shaderProgram env.VAO N
  have hc : (loopTrace w env.shaderProgram env.VAO N).filterMap Call.creates = [] :=
    List.filterMap_eq_nil_iff.mpr (fun c hc => (hloop c hc).1)
  have hd : (loopTrace w env.shaderProgram env.VAO N).filterMap Call.releases = [] :=
    List.filterMap_eq_nil_iff.mpr (fun c hc => (hloop c hc).2)
  refine ⟨?_, ?_, ?_⟩
  · obtain ⟨fr, hfr, -⟩ := loopTrace_split w env.shaderProgram env.VAO N
    exact ⟨setupCalls env w ++ primingCalls w ++ fr, by simp [hfr, teardownCalls]⟩
  · simp [releaseOrder, List.filterMap_append, hd, setupCalls, bootstrapCalls, contextCalls,
      shaderCalls, geometryCalls, primingCalls, teardownCalls, Call.releases,
      Resource.isShader]
  · simp [creationOrder, List.filterMap_append, hc, setupCalls, bootstrapCalls, contextCalls,
      shaderCalls, geometryCalls, primingCalls, teardownCalls, Call.creates,
      Resource.isShader]

/-- Witness of the amended C3 on `envTwoFrames` (two frames, fuel 3). -/
theorem C3_teardown_order_witness :
    envTwoFrames.window = some 7 ∧
    ∃ r, main envTwoFrames 3 = some r ∧
      (∃ pre, r.trace = pre ++ [.glfwWindowShouldClose 7 true,
        .glDeleteVertexArrays 1 1, .glDeleteBuffers 1 1,
        .glDeleteProgram 3, .glfwDestroyWindow 7, .glfwTerminate]) ∧
      releaseOrder r.trace =
        [.vertexArray 1, .buffer 1, .program 3, .window 7, .library] ∧
      creationOrder r.trace =
        [.library, .window 7, .program 3, .vertexArray 1, .buffer 1] :=
  ⟨rfl, _, rfl, C3_teardown_order envTwoFrames 7 3 _ rfl rfl⟩

/-- C4. If `glfwWindowShouldClose` answers false to its first `N` queries and
true to the next one, and the window was created, then `main` returns (with any
fuel above `N`) with status 0; the close flag is queried exactly `N + 1` times,
there are exactly `N` draw calls and `N` event pumps and exactly `N + 1` buffer
swaps; the trace is a part without a positive answer, then the positive answer,
then at once the five teardown calls, none of which is a draw or a swap. -/
theorem C4_loop_count (env : Env) (w N fuel : Nat) (hw : env.window = some w)
    (hfalse : ∀ k, k < N → env.shouldClose k = false) (htrue : env.shouldClose N = true)
    (hfuel : N < fuel) :
    ∃ r, main env fuel = some r ∧ r.status = 0 ∧
      r.trace.countP Call.isShouldClose = N + 1 ∧
      r.trace.countP Call.isDraw = N ∧
      r.trace.countP Call.isPoll = N ∧
      r.trace.countP Call.isSwap = N + 1 ∧
      (1 ≤ N → 2 ≤ r.trace.countP Call.isSwap) ∧
      ∃ pre, r.trace = pre ++ .glfwWindowShouldClose w true ::
            [.glDeleteVertexArrays 1 env.VAO, .glDeleteBuffers 1 env.VBO,
             .glDeleteProgram env.shaderProgram, .glfwDestroyWindow w, .glfwTerminate] ∧
        (∀ c ∈ pre, ∀ w', c ≠ .glfwWindowShouldClose w' true) ∧
        ∀ c ∈ teardownCalls w env.shaderProgram env.VAO env.VBO,
          c.isDraw = false ∧ c.isSwap = false := by
  refine ⟨_, main_complete env w N fuel hw hfalse htrue hfuel, rfl, ?_, ?_, ?_, ?_, ?_, ?_⟩
  · simp [List.countP_append, countP_loopTrace_shouldClose, setupCalls, bootstrapCalls,
      contextCalls, shaderCalls, geometryCalls, primingCalls, teardownCalls, Call.isShouldClose]
  · simp [List.countP_append, countP_loopTrace_draw, setupCalls, bootstrapCalls,
      contextCalls, shaderCalls, geometryCalls, primingCalls, teardownCalls, Call.isDraw]
  · simp [List.countP_append, countP_loopTrace_poll, setupCalls, bootstrapCalls,
      contextCalls, shaderCalls, geometryCalls, primingCalls, teardownCalls, Call.isPoll]
  · simp [List.countP_append, countP_loopTrace_swap, setupCalls, bootstrapCalls,
      contextCalls, shaderCalls, geometryCalls, primingCalls, teardownCalls, Call.isSwap]
  · intro hN
    simp [List.countP_append, countP_loopTrace_swap, setupCalls, bootstrapCalls,
      contextCalls, shaderCalls, geometryCalls, primingCalls, teardownCalls, Call.isSwap]
    omega
  · obtain ⟨fr, hfr, hno⟩ := loopTrace_split w env.shaderProgram env.VAO N
    refine ⟨setupCalls env w ++ primingCalls w ++ fr, by simp [hfr, teardownCalls], ?_, ?_⟩
    · intro c hc w'
      simp only [List.mem_append] at hc
      rcases hc with (hc | hc) | hc
      · revert c
        simp [setupCalls, bootstrapCalls, contextCalls, shaderCalls, geometryCalls]
      · revert c
        simp [primingCalls]
      · exact hno c hc w'
    · simp [teardownCalls, Call.isDraw, Call.isSwap]

/-- Witness of C4 on `envTwoFrames` (two frames, fuel 3). -/
theorem C4_loop_count_witness :
    envTwoFrames.window = some 7 ∧
    (∀ k, k < 2 → envTwoFrames.shouldClose k = false) ∧
    envTwoFrames.shouldClose 2 = true ∧ 2 < 3 ∧
    ∃ r, main envTwoFrames 3 = some r ∧ r.status = 0 ∧
      r.trace.countP Call.isShouldClose = 2 + 1 ∧
      r.trace.countP Call.isDraw = 2 ∧
      r.trace.countP Call.isPoll = 2 ∧
      r.trace.countP Call.isSwap = 2 + 1 ∧
      (1 ≤ 2 → 2 ≤ r.trace.countP Call.isSwap) ∧
      ∃ pre, r.trace = pre ++ .glfwWindowShouldClose 7 true ::
            [.glDeleteVertexArrays 1 envTwoFrames.VAO, .glDeleteBuffers 1 envTwoFrames.VBO,
             .glDeleteProgram envTwoFrames.shaderProgram, .glfwDestroyWindow 7,
             .glfwTerminate] ∧
        (∀ c ∈ pre, ∀ w', c ≠ .glfwWindowShouldClose w' true) ∧
        ∀ c ∈ teardownCalls 7 envTwoFrames.shaderProgram envTwoFrames.VAO envTwoFrames.VBO,
          c.isDraw = false ∧ c.isSwap = false :=
  ⟨rfl, by decide, rfl, by decide,
    C4_loop_count envTwoFrames 7 2 3 rfl (by decide) rfl (by decide)⟩

/-- C5. Every run with a window that returns consists of the setup, the priming
clear and swap, then `N` iterations (`N` the number of negative answers), each
of them the negative answer of the close query followed by exactly
`glClearColor(0.07, 0.13, 0.17, 1.0)`, `glClear(GL_COLOR_BUFFER_BIT)`,
`glUseProgram(p)`, `glBindVertexArray(v)`, `glDrawArrays(GL_TRIANGLES, 0, 3)`,
`glfwSwapBuffers(window)`, `glfwPollEvents()`, then the positive answer and the
teardown; `p` is the program created and linked in the setup and `v` the vertex
array generated there; and at every draw call of the trace the call is
`glDrawArrays(GL_TRIANGLES, 0, 3)`, the active program is `p` and the bound
vertex array is `v`. -/
theorem C5_frame_sequence (env : Env) (w fuel : Nat) (r : Run)
    (hw : env.window = some w) (h : main env fuel = some r) :
    (∃ N, (∀ k, k < N → env.shouldClose k = false) ∧ env.shouldClose N = true ∧
      r.trace = setupCalls env w ++ primingCalls w ++
        (List.replicate N
          [ .glfwWindowShouldClose w false,
            .glClearColor (.lit 7 2) (.lit 13 2) (.lit 17 2) (.lit 10 1),
            .glClear .GL_COLOR_BUFFER_BIT,
            .glUseProgram env.shaderProgram,
            .glBindVertexArray env.VAO,
            .glDrawArrays .GL_TRIANGLES 0 3,
            .glfwSwapBuffers w,
            .glfwPollEvents ]).flatten ++
        [.glfwWindowShouldClose w true] ++
        teardownCalls w env.shaderProgram env.VAO env.VBO) ∧
    .glCreateProgram env.shaderProgram ∈ setupCalls env w ∧
    .glLinkProgram env.shaderProgram ∈ setupCalls env w ∧
    .glGenVertexArrays 1 env.VAO ∈ setupCalls env w ∧
    ∀ pre c post, r.trace = pre ++ c :: post → c.isDraw = true →
      c = .glDrawArrays .GL_TRIANGLES 0 3 ∧
      (GLState.init.run pre).program = env.shaderProgram ∧
      (GLState.init.run pre).boundVAO = env.VAO := by
  obtain ⟨N, -, hfalse, htrue, rfl⟩ := main_sound env w fuel r hw h
  refine ⟨⟨N, hfalse, htrue, ?_⟩, ?_, ?_, ?_, ?_⟩
  · simp [loopTrace_eq_flatten, frameCalls]
  · simp [setupCalls, shaderCalls]
  · simp [setupCalls, shaderCalls]
  · simp [setupCalls, geometryCalls]
  · intro pre c post ht hc
    obtain ⟨h1, h2⟩ := state_at_draw env w N pre post c ht hc
    exact ⟨h1, by rw [h2]; rfl, by rw [h2]; rfl⟩

/-- Witness of C5 on `envTwoFrames` (two frames, fuel 3). -/
theorem C5_frame_sequence_witness :
    envTwoFrames.window = some 7 ∧
    ∃ r, main envTwoFrames 3 = some r ∧
      (∃ N, (∀ k, k < N → envTwoFrames.shouldClose k = false) ∧
        envTwoFrames.shouldClose N = true ∧
        r.trace = setupCalls envTwoFrames 7 ++ primingCalls 7 ++
          (List.replicate N
            [ .glfwWindowShouldClose 7 false,
              .glClearColor (.lit 7 2) (.lit 13 2) (.lit 17 2) (.lit 10 1),
              .glClear .GL_COLOR_BUFFER_BIT,
              .glUseProgram envTwoFrames.shaderProgram,
              .glBindVertexArray envTwoFrames.VAO,
              .glDrawArrays .GL_TRIANGLES 0 3,
              .glfwSwapBuffers 7,
              .glfwPollEvents ]).flatten ++
          [.glfwWindowShouldClose 7 true] ++
          teardownCalls 7 envTwoFrames.shaderProgram envTwoFrames.VAO envTwoFrames.VBO) ∧
      .glCreateProgram envTwoFrames.shaderProgram ∈ setupCalls envTwoFrames 7 ∧
      .glLinkProgram envTwoFrames.shaderProgram ∈ setupCalls envTwoFrames 7 ∧
      .glGenVertexArrays 1 envTwoFrames.VAO ∈ setupCalls envTwoFrames 7 ∧
      ∀ pre c post, r.trace = pre ++ c :: post → c.isDraw = true →
        c = .glDrawArrays .GL_TRIANGLES 0 3 ∧
        (GLState.init.run pre).program = envTwoFrames.shaderProgram ∧
        (GLState.init.run pre).boundVAO = envTwoFrames.VAO :=
  ⟨rfl, _, rfl, C5_frame_sequence envTwoFrames 7 3 _ rfl rfl⟩

/-- C6. In a run with a window that returns, the driver having returned non-zero
names `VAO` and `VBO`, the trace contains the geometry-upload calls, and in the
binding state right after them: the only attribute record written is slot 0 of
`VAO`, namely buffer `VBO`, 3 components, `GL_FLOAT`, not normalised, stride
`3 * sizeof(float)` = 12 bytes, offset 0; the only slot enabled is slot 0 of
`VAO`; the only upload is into `VBO`: the 9 elements of `vertices`, 36 bytes,
with `GL_STATIC_DRAW`; the array-buffer binding and the vertex-array binding are
both 0.  The whole trace has exactly one attribute-pointer call, and when it is
issued `VAO` and `VBO` are the current bindings. -/
theorem C6_geometry_postcondition (env : Env) (w fuel : Nat) (r : Run)
    (hw : env.window = some w) (hVAO : env.VAO ≠ 0) (hVBO : env.VBO ≠ 0)
    (h : main env fuel = some r) :
    (∃ before rest, r.trace = before ++ geometryCalls env.VAO env.VBO ++ rest ∧
      (GLState.init.run (before ++ geometryCalls env.VAO env.VBO)).attribs =
        [((env.VAO, 0), { buffer := env.VBO, size := 3, type := .GL_FLOAT,
                          normalized := false, stride := 12, offset := 0 })] ∧
      (GLState.init.run (before ++ geometryCalls env.VAO env.VBO)).attrib env.VAO 0 =
        some { buffer := env.VBO, size := 3, type := .GL_FLOAT,
               normalized := false, stride := 12, offset := 0 } ∧
      (GLState.init.run (before ++ geometryCalls env.VAO env.VBO)).enabled = [(env.VAO, 0)] ∧
      (GLState.init.run (before ++ geometryCalls env.VAO env.VBO)).buffers =
        [(env.VBO, { size := 36, data := vertices, usage := .GL_STATIC_DRAW })] ∧
      (GLState.init.run (before ++ geometryCalls env.VAO env.VBO)).boundArrayBuffer = 0 ∧
      (GLState.init.run (before ++ geometryCalls env.VAO env.VBO)).boundVAO = 0) ∧
    vertices.length = 9 ∧ 3 * sizeofFloat = 12 ∧ sizeofVertices = 36 ∧
    r.trace.countP Call.isAttribPointer = 1 ∧
    ∀ pre c post, r.trace = pre ++ c :: post → c.isAttribPointer = true →
      (GLState.init.run pre).boundVAO = env.VAO ∧
      (GLState.init.run pre).boundArrayBuffer = env.VBO := by
  obtain ⟨N, -, -, -, rfl⟩ := main_sound env w fuel r hw h
  have hst := setup_state env w hVAO hVBO
  refine ⟨⟨bootstrapCalls (some w) ++ contextCalls w ++
      shaderCalls env.vertexShader env.fragmentShader env.shaderProgram,
    primingCalls w ++ loopTrace w env.shaderProgram env.VAO N ++
      teardownCalls w env.shaderProgram env.VAO env.VBO, ?_, ?_⟩, rfl, rfl, rfl, ?_, ?_⟩
  · simp [setupCalls]
  · rw [show bootstrapCalls (some w) ++ contextCalls w ++
        shaderCalls env.vertexShader env.fragmentShader env.shaderProgram ++
        geometryCalls env.VAO env.VBO = setupCalls env w from rfl, hst]
    simp [GLState.attrib, sizeofFloat, sizeofVertices, vertices]
  · simp [List.countP_append, countP_loopTrace_attribPointer, setupCalls, bootstrapCalls,
      contextCalls, shaderCalls, geometryCalls, primingCalls, teardownCalls,
      Call.isAttribPointer]
  · intro pre c post ht hc
    exact state_at_attribPointer env w N pre post c ht hc

/-- Witness of C6 on `envTwoFrames` (two frames, fuel 3). -/
theorem C6_geometry_postcondition_witness :
    envTwoFrames.window = some 7 ∧ envTwoFrames.VAO ≠ 0 ∧ envTwoFrames.VBO ≠ 0 ∧
    ∃ r, main envTwoFrames 3 = some r ∧
      r.trace.countP Call.isAttribPointer = 1 ∧
      ∃ before rest, r.trace = before ++ geometryCalls 1 1 ++ rest ∧
        (GLState.init.run (before ++ geometryCalls 1 1)).attrib 1 0 =
          some { buffer := 1, size := 3, type := .GL_FLOAT,
                 normalized := false, stride := 12, offset := 0 } ∧
        (GLState.init.run (before ++ geometryCalls 1 1)).buffers =
          [(1, { size := 36, data := vertices, usage := .GL_STATIC_DRAW })] :=
  ⟨rfl, by decide, by decide, _, rfl,
    (C6_geometry_postcondition envTwoFrames 7 3 _ rfl (by decide) (by decide) rfl).2.2.2.2.1,
    (C6_geometry_postcondition envTwoFrames 7 3 _ rfl (by decide) (by decide) rfl).1.imp
      (fun _ hb => hb.imp (fun _ hr => ⟨hr.1, hr.2.2.1, hr.2.2.2.2.1⟩))⟩

/-- C7. Evaluated exactly over the reals (`sqrt` the real square root, `float(...)`
the identity), the nine elements of `vertices` are, in order, `-1/2, -√3/6, 0`,
`1/2, -√3/6, 0`, `0, √3/3, 0`, and each of them lies in `[-1, 1]`. -/
theorem C7_vertex_data :
    vertices.map (FExpr.eval Real.sqrt) =
      [ -1 / 2, -Real.sqrt 3 / 6, 0,
        1 / 2, -Real.sqrt 3 / 6, 0,
        0, Real.sqrt 3 / 3, 0 ] ∧
    ∀ x ∈ vertices.map (FExpr.eval Real.sqrt), -1 ≤ x ∧ x ≤ 1 := by
  have hlo := sqrt3_lower
  have hhi := sqrt3_upper
  have hv : vertices.map (FExpr.eval Real.sqrt) =
      [ -1 / 2, -Real.sqrt 3 / 6, 0, 1 / 2, -Real.sqrt 3 / 6, 0, 0, Real.sqrt 3 / 3, 0 ] := by
    simp only [vertices, floatSqrt3, List.map, FExpr.eval]
    norm_num
    refine ⟨by ring, by ring⟩
  refine ⟨hv, ?_⟩
  rw [hv]
  intro x hx
  simp only [List.mem_cons, List.mem_singleton, List.not_mem_nil, or_false] at hx
  rcases hx with rfl | rfl | rfl | rfl | rfl | rfl | rfl | rfl | rfl <;>
    constructor <;> norm_num <;> linarith

/-- C9 as stated fails on the values the program stores: the window-space area
of the triangle is not within 2% of 86 600 (it does not lie between 84 868 and
88 332), and it is not equal to `sqrt(3)/4 * 1^2 * (800/2)^2`. -/
theorem C9_area_not_near_86600 :
    ¬ ((84868 : ℚ) ≤ triangleArea (windowXY 0) (windowXY 1) (windowXY 2) ∧
        triangleArea (windowXY 0) (windowXY 1) (windowXY 2) ≤ (88332 : ℚ)) ∧
    ((triangleArea (windowXY 0) (windowXY 1) (windowXY 2) : ℚ) : ℝ) ≠
      Real.sqrt 3 / 4 * 1 ^ 2 * (800 / 2) ^ 2 := by
  have hlo := sqrt3_near.1
  rw [triangleArea_window]
  constructor
  · norm_num
  · intro h
    push_cast at h
    linarith

/-- C9, amended. The window-space area, under the viewport `(0, 0, 800, 800)`, of
the triangle whose vertices are the values the program stores in `vertices`
equals `40000 * f`, where `f = 14529495 / 2^23` is the value of
`float(sqrt(3))`; that is `9080934375 / 131072`, about 69 282.03.  It lies
strictly between 69 282 and 69 283 and differs from
`sqrt(3)/4 * 1^2 * (800/2)^2` by less than 0.002. -/
theorem C9_triangle_area :
    floatSqrt3.evalC.map Dyadic.toRat = some (14529495 / 8388608) ∧
    triangleArea (windowXY 0) (windowXY 1) (windowXY 2) = 40000 * (14529495 / 8388608) ∧
    triangleArea (windowXY 0) (windowXY 1) (windowXY 2) = 9080934375 / 131072 ∧
    (69282 : ℚ) < triangleArea (windowXY 0) (windowXY 1) (windowXY 2) ∧
    triangleArea (windowXY 0) (windowXY 1) (windowXY 2) < (69283 : ℚ) ∧
    |((triangleArea (windowXY 0) (windowXY 1) (windowXY 2) : ℚ) : ℝ) -
        Real.sqrt 3 / 4 * 1 ^ 2 * (800 / 2) ^ 2| < 1 / 500 := by
  have hlo := sqrt3_near.1
  have hhi := sqrt3_near.2
  rw [triangleArea_window]
  refine ⟨?_, by norm_num, rfl, by norm_num, by norm_num, ?_⟩
  · rw [evalC_sqrt3.2]
    simp only [Option.map_some', Dyadic.toRat]
    norm_num
  · rw [abs_lt]
    push_cast
    constructor <;> linarith

/-- C10. In a run with a window that returns, every draw call is
`glDrawArrays(GL_TRIANGLES, 0, 3)`.  Whenever slot 0 of the bound vertex array
has a record and the buffer it names has contents, that buffer has 36 bytes,
the size given to the upload (`sizeof(vertices)`, 9 floats of 4 bytes); vertex
`i` of the draw reads exactly the 12 bytes from `i * 12` on, which lie below 36;
and the bytes read by the draw are exactly the offsets below 36: the draw reads
nothing outside the uploaded data and leaves none of it unread.  When the driver
returned non-zero names, the record and the contents are there and the slot is
enabled. -/
theorem C10_draw_within_buffer (env : Env) (w fuel : Nat) (r : Run)
    (hw : env.window = some w) (h : main env fuel = some r) :
    sizeofVertices = 36 ∧ vertices.length = 9 ∧ sizeofFloat = 4 ∧
    ∀ pre c post, r.trace = pre ++ c :: post → c.isDraw = true →
      ∃ first count,
        c = .glDrawArrays .GL_TRIANGLES first count ∧ first = 0 ∧ count = 3 ∧
        (∀ a b,
          (GLState.init.run pre).attrib (GLState.init.run pre).boundVAO 0 = some a →
          (GLState.init.run pre).buffer a.buffer = some b →
          b.size = sizeofVertices ∧
          (∀ i, i < count → ∀ x, x ∈ vertexBytes a (first + i) ↔
            (first + i) * 12 ≤ x ∧ x < (first + i) * 12 + 3 * sizeofFloat) ∧
          (∀ i, i < count → ∀ x ∈ vertexBytes a (first + i), x < b.size) ∧
          ∀ x, x ∈ drawBytes a first count ↔ x < b.size) ∧
        (env.VAO ≠ 0 → env.VBO ≠ 0 →
          ∃ a b,
            (GLState.init.run pre).attrib (GLState.init.run pre).boundVAO 0 = some a ∧
            ((GLState.init.run pre).boundVAO, 0) ∈ (GLState.init.run pre).enabled ∧
            a.buffer = env.VBO ∧
            (GLState.init.run pre).buffer a.buffer = some b ∧
            b.data = vertices) := by
  obtain ⟨N, -, -, -, rfl⟩ := main_sound env w fuel r hw h
  refine ⟨rfl, rfl, rfl, ?_⟩
  intro pre c post ht hc
  obtain ⟨h1, h2⟩ := state_at_draw env w N pre post c ht hc
  rw [h2]
  refine ⟨0, 3, h1, rfl, rfl, ?_, ?_⟩
  · intro a b ha hb
    have hab : a = (⟨env.VBO, 3, .GL_FLOAT, false, 3 * sizeofFloat, 0⟩ : AttribRecord) ∧
        b = (⟨sizeofVertices, vertices, .GL_STATIC_DRAW⟩ : BufferStore) := by
      by_cases hVAO : env.VAO = 0
      · simp [drawState, setupCalls, bootstrapCalls, contextCalls, shaderCalls, geometryCalls,
          GLState.run, GLState.step, GLState.init, GLState.attrib, hVAO] at ha
        split at ha <;> simp at ha
      · by_cases hVBO : env.VBO = 0
        · simp [drawState, setupCalls, bootstrapCalls, contextCalls, shaderCalls,
            geometryCalls, GLState.run, GLState.step, GLState.init, GLState.attrib,
            hVAO, hVBO] at ha
          subst ha
          simp [drawState, setupCalls, bootstrapCalls, contextCalls, shaderCalls,
            geometryCalls, GLState.run, GLState.step, GLState.init, GLState.buffer,
            hVAO, hVBO] at hb
        · rw [drawState, setup_state env w hVAO hVBO] at ha hb
          simp [GLState.attrib] at ha
          subst ha
          simp [GLState.buffer] at hb
          exact ⟨rfl, hb.symm⟩
    obtain ⟨rfl, rfl⟩ := hab
    refine ⟨rfl, ?_, ?_, ?_⟩
    · intro i hi x
      simp only [vertexBytes, componentSize, sizeofFloat, List.mem_map, List.mem_range]
      constructor
      · rintro ⟨j, hj, rfl⟩
        omega
      · intro hx
        exact ⟨x - (0 + i) * 12, by omega, by omega⟩
    · intro i hi x hx
      simp only [vertexBytes, componentSize, sizeofFloat, List.mem_map, List.mem_range] at hx
      obtain ⟨j, hj, rfl⟩ := hx
      show _ < 9 * 4
      omega
    · intro x
      have hb : drawBytes (⟨env.VBO, 3, .GL_FLOAT, false, 3 * sizeofFloat, 0⟩ : AttribRecord)
          0 3 = List.range 36 := by
        rfl
      rw [hb, List.mem_range]
      rfl
  · intro hVAO hVBO
    rw [drawState, setup_state env w hVAO hVBO]
    exact ⟨⟨env.VBO, 3, .GL_FLOAT, false, 3 * sizeofFloat, 0⟩,
      ⟨sizeofVertices, vertices, .GL_STATIC_DRAW⟩,
      by simp [GLState.attrib], by simp, rfl, by simp [GLState.buffer], rfl⟩

/-- Witness of C10 on `envTwoFrames` (two frames, fuel 3). -/
theorem C10_draw_within_buffer_witness :
    envTwoFrames.window = some 7 ∧
    ∃ r, main envTwoFrames 3 = some r ∧
      sizeofVertices = 36 ∧ vertices.length = 9 ∧ sizeofFloat = 4 ∧
      ∀ pre c post, r.trace = pre ++ c :: post → c.isDraw = true →
        ∃ first count,
          c = .glDrawArrays .GL_TRIANGLES first count ∧ first = 0 ∧ count = 3 ∧
          (∀ a b,
            (GLState.init.run pre).attrib (GLState.init.run pre).boundVAO 0 = some a →
            (GLState.init.run pre).buffer a.buffer = some b →
            b.size = sizeofVertices ∧
            (∀ i, i < count → ∀ x, x ∈ vertexBytes a (first + i) ↔
              (first + i) * 12 ≤ x ∧ x < (first + i) * 12 + 3 * sizeofFloat) ∧
            (∀ i, i < count → ∀ x ∈ vertexBytes a (first + i), x < b.size) ∧
            ∀ x, x ∈ drawBytes a first count ↔ x < b.size) ∧
          (envTwoFrames.VAO ≠ 0 → envTwoFrames.VBO ≠ 0 →
            ∃ a b,
              (GLState.init.run pre).attrib (GLState.init.run pre).boundVAO 0 = some a ∧
              ((GLState.init.run pre).boundVAO, 0) ∈ (GLState.init.run pre).enabled ∧
              a.buffer = envTwoFrames.VBO ∧
              (GLState.init.run pre).buffer a.buffer = some b ∧
              b.data = vertices) :=
  ⟨rfl, _, rfl, C10_draw_within_buffer envTwoFrames 7 3 _ rfl rfl⟩

end TVG
